import Mathlib

/-!
Verification of the location-acquisition controller (MapPicker) and the
audio-recording widget (MediaUploader) of the repository, as a shallow
embedding.  The component state of each widget is a record; every event
handler of the source is a function from state to state paired with the
list of observable effects it performs (calls to the positioning
provider, user alerts, onLocationSelect notifications, map fly-to and
marker operations).  Asynchronous getCurrentPosition calls are modelled
as a list of pending attempts carrying the closure parameters
(showError, enableHighAccuracy) of the handleGeolocation invocation that
issued them; a success or error event delivers the callback of one
pending attempt.
-/

namespace MapPicker

/-- A latitude / longitude pair.  The source never computes with the
components, so rationals model the numeric values exactly. -/
structure Coordinates where
  lat : ℚ
  lng : ℚ
  deriving DecidableEq, Repr

/-- The options object passed to getCurrentPosition in the source:
enableHighAccuracy, timeout (ms) and maximumAge (ms). -/
structure GeoOptions where
  enableHighAccuracy : Bool
  timeout : Nat
  maximumAge : Nat
  deriving DecidableEq, Repr

/-- One in-flight getCurrentPosition call.  The id distinguishes
attempts; showError and highAccuracy are the parameters of the
handleGeolocation invocation that created it, captured by its success
and error closures. -/
structure Attempt where
  id : Nat
  showError : Bool
  highAccuracy : Bool
  deriving DecidableEq, Repr

/-- Environment of one component instance: whether navigator.geolocation
exists, whether WebGL (hence the map) is supported, and the value of the
MAP_DEFAULT_CENTER constant (defined outside the given sources). -/
structure Config where
  geoAvailable : Bool
  webglSupported : Bool
  defaultCenter : Coordinates
  deriving DecidableEq, Repr

/-- Observable side effects of the component. -/
inductive Effect where
  | geoCall (opts : GeoOptions)
  | alert
  | locationSelect (c : Coordinates)
  | flyTo (c : Coordinates) (zoom : Nat)
  | markerCreate (c : Coordinates)
  | markerMove (c : Coordinates)
  deriving DecidableEq, Repr

/-- Component state: the location prop (the parent echoes every
onLocationSelect value back into it), the React state flags, the map and
marker refs, and the pending getCurrentPosition calls. -/
structure State where
  location : Option Coordinates
  isLocating : Bool
  manualFallbackUsed : Bool
  mapExists : Bool
  mapLoaded : Bool
  mapError : Bool
  marker : Option Coordinates
  pending : List Attempt
  nextId : Nat
  deriving DecidableEq, Repr

/-- Initial state of a freshly created component with location prop
loc: no map yet, no flags set, nothing pending. -/
def initState (loc : Option Coordinates) : State :=
  { location := loc, isLocating := false, manualFallbackUsed := false
    mapExists := false, mapLoaded := false, mapError := false
    marker := none, pending := [], nextId := 0 }

/-- Source handleManualSelect: setIsLocating(false) and, when the map
ref exists, flyTo the default center at zoom 11. -/
def handleManualSelect (cfg : Config) (s : State) : State × List Effect :=
  let s1 := { s with isLocating := false }
  if s1.mapExists = true then (s1, [Effect.flyTo cfg.defaultCenter 11]) else (s1, [])

/-- Source handleGeolocation(showError, enableHighAccuracy):
setIsLocating(true); if navigator.geolocation is absent, optionally
alert, setIsLocating(false) and fall back to handleManualSelect;
otherwise issue one getCurrentPosition call with
timeout = enableHighAccuracy ? 10000 : 20000 and maximumAge 0,
registering the pending attempt. -/
def handleGeolocation (cfg : Config) (se ha : Bool) (s : State) : State × List Effect :=
  if cfg.geoAvailable = false then
    let p := handleManualSelect cfg { s with isLocating := false }
    (p.1, (if se = true then [Effect.alert] else []) ++ p.2)
  else
    ({ s with isLocating := true
              pending := s.pending ++ [⟨s.nextId, se, ha⟩]
              nextId := s.nextId + 1 },
     [Effect.geoCall ⟨ha, if ha = true then 10000 else 20000, 0⟩])

/-- Source success callback of handleGeolocation: onLocationSelect with
the fix, setIsLocating(false), setManualFallbackUsed(true), and flyTo
the fix at zoom 16 when the map ref exists. -/
def geoSuccess (c : Coordinates) (s : State) : State × List Effect :=
  ({ s with location := some c, isLocating := false, manualFallbackUsed := true },
   [Effect.locationSelect c] ++ (if s.mapExists = true then [Effect.flyTo c 16] else []))

/-- Source error callback of handleGeolocation: on a timeout (code 3) of
a high-accuracy attempt, re-invoke handleGeolocation with high accuracy
disabled and return; otherwise optionally alert, setIsLocating(false),
and flyTo the default center at zoom 11 when the map ref exists. -/
def geoError (cfg : Config) (a : Attempt) (code : Nat) (s : State) : State × List Effect :=
  if a.highAccuracy = true ∧ code = 3 then
    handleGeolocation cfg a.showError false s
  else
    let fx0 : List Effect := if a.showError = true then [Effect.alert] else []
    let s1 := { s with isLocating := false }
    if s1.mapExists = true then (s1, fx0 ++ [Effect.flyTo cfg.defaultCenter 11])
    else (s1, fx0)

/-- Source handleMapClick: onLocationSelect with the tapped point. -/
def handleMapClick (c : Coordinates) (s : State) : State × List Effect :=
  ({ s with location := some c }, [Effect.locationSelect c])

/-- Source handleFallbackLocation: onLocationSelect with the default
center and setManualFallbackUsed(true). -/
def handleFallbackLocation (cfg : Config) (s : State) : State × List Effect :=
  ({ s with location := some cfg.defaultCenter, manualFallbackUsed := true },
   [Effect.locationSelect cfg.defaultCenter])

/-- Source marker-update effect (deps [location, mapLoaded]): when a
location exists and the map is loaded, create the marker and flyTo the
location at zoom 16 the first time, afterwards only move the marker. -/
def markerEffect (s : State) : State × List Effect :=
  match s.location with
  | none => (s, [])
  | some c =>
    if s.mapExists = true ∧ s.mapLoaded = true then
      match s.marker with
      | none => ({ s with marker := some c }, [Effect.markerCreate c, Effect.flyTo c 16])
      | some _ => ({ s with marker := some c }, [Effect.markerMove c])
    else (s, [])

/-- Find the pending attempt with the given id and remove it from the
pending list (a getCurrentPosition callback fires at most once). -/
def takeAttempt (id : Nat) (l : List Attempt) : Option (Attempt × List Attempt) :=
  match l.find? (fun a => a.id == id) with
  | none => none
  | some a => some (a, l.filter (fun b => b.id != id))

/-- Inputs to the component: mount, map load and map error events, a map
tap, the four buttons of the source (the GPS overlay button, the
locate and update-location buttons of the map-error view, the manual
hand button, the use-default link), and delivery of a success or error
callback of a pending attempt. -/
inductive Event where
  | mount
  | mapLoad
  | mapErrorEvent
  | mapClick (c : Coordinates)
  | clickGPS
  | clickUseCurrentLoc
  | clickUpdateLoc
  | clickManualSelect
  | clickFallback
  | success (id : Nat) (c : Coordinates)
  | error (id : Nat) (code : Nat)
  deriving DecidableEq, Repr

/-- One step of the component.  Button events are guarded by the
conditions under which the source renders (and does not disable) the
button: the GPS overlay button and the map-error locate button carry
disabled(isLocating), the update-location button of the map-error view
does not; map taps require a rendered map.  After every handler that
wrote the location prop, and after mapLoaded changes, the marker-update
effect runs. -/
def step (cfg : Config) (s : State) (e : Event) : State × List Effect :=
  match e with
  | .mount =>
      let s1 := if cfg.webglSupported = true then { s with mapExists := true }
                else { s with mapError := true }
      if s1.location = none then handleGeolocation cfg false true s1 else (s1, [])
  | .mapLoad =>
      if s.mapExists = true then markerEffect { s with mapLoaded := true } else (s, [])
  | .mapErrorEvent =>
      if s.mapExists = true then ({ s with mapError := true }, []) else (s, [])
  | .mapClick c =>
      if s.mapError = false ∧ s.mapExists = true then
        let p := handleMapClick c s
        let q := markerEffect p.1
        (q.1, p.2 ++ q.2)
      else (s, [])
  | .clickGPS =>
      if s.mapError = false ∧ s.isLocating = false then handleGeolocation cfg true true s
      else (s, [])
  | .clickUseCurrentLoc =>
      if s.mapError = true ∧ ¬(s.location.isSome = true ∧ s.manualFallbackUsed = true)
         ∧ s.isLocating = false then
        handleGeolocation cfg true true s
      else (s, [])
  | .clickUpdateLoc =>
      if s.mapError = true ∧ s.location.isSome = true ∧ s.manualFallbackUsed = true then
        handleGeolocation cfg true true s
      else (s, [])
  | .clickManualSelect =>
      if s.mapError = false then handleManualSelect cfg s else (s, [])
  | .clickFallback =>
      if s.mapError = true ∧ ¬(s.location.isSome = true ∧ s.manualFallbackUsed = true) then
        let p := handleFallbackLocation cfg s
        let q := markerEffect p.1
        (q.1, p.2 ++ q.2)
      else (s, [])
  | .success id c =>
      match takeAttempt id s.pending with
      | none => (s, [])
      | some (_, rest) =>
        let p := geoSuccess c { s with pending := rest }
        let q := markerEffect p.1
        (q.1, p.2 ++ q.2)
  | .error id code =>
      match takeAttempt id s.pending with
      | none => (s, [])
      | some (a, rest) => geoError cfg a code { s with pending := rest }

/-- Run a sequence of events, accumulating all effects in order. -/
def run (cfg : Config) (s : State) : List Event → State × List Effect
  | [] => (s, [])
  | e :: es =>
    let p := step cfg s e
    let q := run cfg p.1 es
    (q.1, p.2 ++ q.2)

/-- The coordinates delivered to onLocationSelect, in order. -/
def selects : List Effect → List Coordinates
  | [] => []
  | Effect.locationSelect c :: fx => c :: selects fx
  | _ :: fx => selects fx

/-- The getCurrentPosition calls issued, in order. -/
def geoCalls : List Effect → List GeoOptions
  | [] => []
  | Effect.geoCall o :: fx => o :: geoCalls fx
  | _ :: fx => geoCalls fx

/-- Number of user-facing alerts. -/
def countAlert : List Effect → Nat
  | [] => 0
  | Effect.alert :: fx => countAlert fx + 1
  | _ :: fx => countAlert fx

/-- Environment with geolocation and WebGL available; the default
center value is irrelevant to every claim and chosen arbitrarily. -/
def cfgFull : Config := ⟨true, true, ⟨0, 0⟩⟩

/-- Environment where navigator.geolocation is absent. -/
def cfgNoGeo : Config := ⟨false, true, ⟨0, 0⟩⟩

/-- Environment where WebGL is unsupported, so the map-error fallback
view is shown from the start. -/
def cfgNoWebgl : Config := ⟨true, false, ⟨0, 0⟩⟩

/-- State after mounting with no preset location in the full
environment: one pending high-accuracy mount attempt (id 0). -/
def afterMount : State := (run cfgFull (initState none) [Event.mount]).1

/-- The coordinate lat 31.63, lng -7.99 of the retry scenario, written
as reduced fractions (the model never computes with coordinates, so the
rationals are built directly as reduced numerator / denominator pairs). -/
def coordFix : Coordinates :=
  ⟨⟨3163, 100, by norm_num, by norm_num⟩, ⟨-799, 100, by norm_num, by norm_num⟩⟩

end MapPicker

namespace MediaUploader

/-- State of the audio-recording part of the MediaUploader widget:
the React state (isRecording, recordingTime), the MediaRecorder ref
(refSet once created, recorderActive while recording), the tick timer,
the isRecording value captured by the interval callback closure, and
the number of blobs delivered to onAudioChange. -/
structure RState where
  isRecording : Bool
  recordingTime : Nat
  refSet : Bool
  recorderActive : Bool
  timerActive : Bool
  tickGuard : Bool
  audioDelivered : Nat
  deriving DecidableEq, Repr

/-- Widget state before any interaction. -/
def init : RState :=
  { isRecording := false, recordingTime := 0, refSet := false
    recorderActive := false, timerActive := false, tickGuard := false
    audioDelivered := 0 }

/-- Source stopRecording, invoked with the isRecording value its
closure captured: guarded by mediaRecorderRef.current and isRecording;
when the guard passes it stops the recorder (whose onstop handler
builds one blob from the accumulated chunks and delivers it to
onAudioChange), setIsRecording(false) and clears the timer. -/
def stopRecordingWith (captured : Bool) (s : RState) : RState :=
  if s.refSet = true ∧ captured = true then
    { s with recorderActive := false, isRecording := false, timerActive := false
             audioDelivered := s.audioDelivered + (if s.recorderActive = true then 1 else 0) }
  else s

/-- Source stopRecording as invoked from the stop button of the current
render, whose closure sees the current isRecording state. -/
def stopRecording (s : RState) : RState := stopRecordingWith s.isRecording s

/-- Source startRecording (reachable only while not recording): create
and start the recorder, setIsRecording(true), setRecordingTime(0), and
install the 1-second interval.  The interval callback calls the
stopRecording binding of the render in which startRecording ran; that
closure captured the isRecording value of this render, recorded here in
tickGuard. -/
def startRecording (s : RState) : RState :=
  if s.isRecording = true then s
  else
    { s with refSet := true, recorderActive := true, isRecording := true
             recordingTime := 0, timerActive := true, tickGuard := s.isRecording }

/-- One interval tick: the functional setRecordingTime updater returns
prev + 1 below 30; at 30 or above it calls the captured stopRecording
closure and returns 30. -/
def tick (s : RState) : RState :=
  if s.timerActive = false then s
  else if 30 ≤ s.recordingTime then
    { stopRecordingWith s.tickGuard s with recordingTime := 30 }
  else { s with recordingTime := s.recordingTime + 1 }

/-- Iterate n timer ticks. -/
def ticks : Nat → RState → RState
  | 0, s => s
  | n + 1, s => ticks n (tick s)

end MediaUploader


namespace MapPicker

theorem selects_append (l1 l2 : List Effect) :
    selects (l1 ++ l2) = selects l1 ++ selects l2 := by
  induction l1 with
  | nil => rfl
  | cons e fx ih => cases e <;> simp [selects, ih]

theorem geoCalls_append (l1 l2 : List Effect) :
    geoCalls (l1 ++ l2) = geoCalls l1 ++ geoCalls l2 := by
  induction l1 with
  | nil => rfl
  | cons e fx ih => cases e <;> simp [geoCalls, ih]

theorem countAlert_append (l1 l2 : List Effect) :
    countAlert (l1 ++ l2) = countAlert l1 + countAlert l2 := by
  induction l1 with
  | nil => simp [countAlert]
  | cons e fx ih => cases e <;> simp [countAlert, ih, Nat.add_right_comm]

theorem markerEffect_location (s : State) : (markerEffect s).1.location = s.location := by
  by_cases hP : (s.mapExists = true ∧ s.mapLoaded = true) <;>
    cases hl : s.location <;> cases hm : s.marker <;>
      simp [markerEffect, hl, hm, hP]

theorem markerEffect_selects (s : State) : selects (markerEffect s).2 = [] := by
  by_cases hP : (s.mapExists = true ∧ s.mapLoaded = true) <;>
    cases hl : s.location <;> cases hm : s.marker <;>
      simp [markerEffect, hl, hm, hP, selects]

theorem markerEffect_geoCalls (s : State) : geoCalls (markerEffect s).2 = [] := by
  by_cases hP : (s.mapExists = true ∧ s.mapLoaded = true) <;>
    cases hl : s.location <;> cases hm : s.marker <;>
      simp [markerEffect, hl, hm, hP, geoCalls]

theorem handleManualSelect_location (cfg : Config) (s : State) :
    (handleManualSelect cfg s).1.location = s.location := by
  cases hm : s.mapExists <;> simp [handleManualSelect, hm]

theorem handleManualSelect_selects (cfg : Config) (s : State) :
    selects (handleManualSelect cfg s).2 = [] := by
  cases hm : s.mapExists <;> simp [handleManualSelect, hm, selects]

theorem handleGeolocation_location (cfg : Config) (se ha : Bool) (s : State) :
    (handleGeolocation cfg se ha s).1.location = s.location := by
  cases hg : cfg.geoAvailable <;> cases hs : se <;> cases hm : s.mapExists <;>
    simp [handleGeolocation, handleManualSelect, hg, hs, hm]

theorem handleGeolocation_selects (cfg : Config) (se ha : Bool) (s : State) :
    selects (handleGeolocation cfg se ha s).2 = [] := by
  cases hg : cfg.geoAvailable <;> cases hs : se <;> cases hm : s.mapExists <;>
    simp [handleGeolocation, handleManualSelect, hg, hs, hm, selects, selects_append]

theorem geoError_location (cfg : Config) (a : Attempt) (code : Nat) (s : State) :
    (geoError cfg a code s).1.location = s.location := by
  by_cases hc : (a.highAccuracy = true ∧ code = 3) <;>
    cases hs : a.showError <;> cases hm : s.mapExists <;>
      simp [geoError, hc, hs, hm, handleGeolocation_location]

theorem geoError_selects (cfg : Config) (a : Attempt) (code : Nat) (s : State) :
    selects (geoError cfg a code s).2 = [] := by
  by_cases hc : (a.highAccuracy = true ∧ code = 3) <;>
    cases hs : a.showError <;> cases hm : s.mapExists <;>
      simp [geoError, hc, hs, hm, selects, selects_append, handleGeolocation_selects]

end MapPicker

open MapPicker

/-- Claim C1: a positioning attempt started with high accuracy that
fails with the timeout error code 3 causes exactly one automatic
getCurrentPosition retry, with high accuracy disabled; the retry itself
(a low-accuracy attempt) never causes a further automatic call, whether
it resolves with an error of any code or with a success. -/
theorem C1_timeout_single_retry (cfg : Config) (s : State) (a : Attempt)
    (rest : List Attempt) (id code : Nat)
    (htake : takeAttempt id s.pending = some (a, rest))
    (hha : a.highAccuracy = true) (hcode : code = 3)
    (hgeo : cfg.geoAvailable = true) :
    geoCalls (step cfg s (Event.error id code)).2 = [⟨false, 20000, 0⟩]
  ∧ (∀ (s' : State) (a' : Attempt) (rest' : List Attempt) (id' code' : Nat),
      takeAttempt id' s'.pending = some (a', rest') → a'.highAccuracy = false →
      geoCalls (step cfg s' (Event.error id' code')).2 = [])
  ∧ (∀ (s' : State) (id' : Nat) (c : Coordinates),
      geoCalls (step cfg s' (Event.success id' c)).2 = []) := by
  refine ⟨?_, ?_, ?_⟩
  · subst hcode
    simp [step, htake, geoError, hha, handleGeolocation, hgeo, geoCalls]
  · intro s' a' rest' id' code' ht' hha'
    cases hse : a'.showError <;> cases hm : s'.mapExists <;>
      simp [step, ht', geoError, hha', hse, hm, geoCalls, geoCalls_append]
  · intro s' id' c
    cases ht' : takeAttempt id' s'.pending with
    | none => simp [step, ht', geoCalls]
    | some p =>
      obtain ⟨a', rest'⟩ := p
      cases hm : s'.mapExists <;>
        simp [step, ht', geoSuccess, hm, geoCalls, geoCalls_append, markerEffect_geoCalls]

/-- Claim C1 witness: in the mounted component, the timeout of the
high-accuracy mount attempt issues exactly the low-accuracy retry
call. -/
theorem C1_witness :
    geoCalls (step cfgFull afterMount (Event.error 0 3)).2
      = [⟨false, 20000, 0⟩] :=
  (C1_timeout_single_retry cfgFull afterMount ⟨0, false, true⟩ [] 0 3 (by decide)
    rfl rfl rfl).1

/-- Claim C2 counterexample: after the mount attempt is superseded by a
manual map tap at (40, -4), the late success callback of the superseded
attempt is not ignored: it overwrites the manually selected location
with its own fix (10, 10) and notifies onLocationSelect again, an
observable effect on the state. -/
theorem C2_counterexample :
    ((run cfgFull (initState none) [Event.mount, Event.mapClick ⟨40, -4⟩]).1.location
        = some ⟨40, -4⟩)
  ∧ (step cfgFull (run cfgFull (initState none) [Event.mount, Event.mapClick ⟨40, -4⟩]).1
        (Event.success 0 ⟨10, 10⟩)).1.location = some ⟨10, 10⟩
  ∧ selects (step cfgFull
        (run cfgFull (initState none) [Event.mount, Event.mapClick ⟨40, -4⟩]).1
        (Event.success 0 ⟨10, 10⟩)).2 = [⟨10, 10⟩] := by decide

/-- Claim C2 amended: the controller has no attempt-identity guard; a
late callback of a superseded attempt is processed with full effect.
In particular a success callback of any pending attempt always sets the
location to its own coordinate and notifies onLocationSelect with it,
even when a newer attempt or a manual override happened meanwhile. -/
theorem C2_stale_callback_full_effect (cfg : Config) (s : State) (a : Attempt)
    (rest : List Attempt) (id : Nat) (c : Coordinates)
    (htake : takeAttempt id s.pending = some (a, rest)) :
    (step cfg s (Event.success id c)).1.location = some c
  ∧ selects (step cfg s (Event.success id c)).2 = [c] := by
  cases hm : s.mapExists <;>
    simp [step, htake, geoSuccess, hm, selects, selects_append,
          markerEffect_location, markerEffect_selects]

/-- Claim C2 amended witness: the pending mount attempt resolving with
(7, 8) sets the location to (7, 8). -/
theorem C2_witness :
    (step cfgFull afterMount (Event.success 0 ⟨7, 8⟩)).1.location = some ⟨7, 8⟩ :=
  (C2_stale_callback_full_effect cfgFull afterMount ⟨0, false, true⟩ [] 0 ⟨7, 8⟩
    (by decide)).1

/-- Claim C3: on every step of the controller, either no
onLocationSelect notification happens and the location is unchanged, or
exactly one notification happens, carrying exactly the (non-null)
coordinate that becomes the new Located location of that transition. -/
theorem C3_select_once_per_transition (cfg : Config) (s : State) (e : Event) :
    (selects (step cfg s e).2 = [] ∧ (step cfg s e).1.location = s.location)
  ∨ (∃ c, selects (step cfg s e).2 = [c] ∧ (step cfg s e).1.location = some c) := by
  cases e with
  | mount =>
      left
      cases hw : cfg.webglSupported <;> cases hl : s.location <;>
        simp [step, hw, hl, handleGeolocation_location, handleGeolocation_selects, selects]
  | mapLoad =>
      left
      simp only [step]
      split <;> simp [markerEffect_location, markerEffect_selects, selects]
  | mapErrorEvent =>
      left
      simp only [step]
      split <;> simp [selects]
  | mapClick c =>
      simp only [step]
      split
      · right
        exact ⟨c, by simp [handleMapClick, selects_append, selects, markerEffect_selects],
                  by simp [handleMapClick, markerEffect_location]⟩
      · left; simp [selects]
  | clickGPS =>
      left
      simp only [step]
      split <;> simp [handleGeolocation_location, handleGeolocation_selects, selects]
  | clickUseCurrentLoc =>
      left
      simp only [step]
      split <;> simp [handleGeolocation_location, handleGeolocation_selects, selects]
  | clickUpdateLoc =>
      left
      simp only [step]
      split <;> simp [handleGeolocation_location, handleGeolocation_selects, selects]
  | clickManualSelect =>
      left
      simp only [step]
      split <;> simp [handleManualSelect_location, handleManualSelect_selects, selects]
  | clickFallback =>
      simp only [step]
      split
      · right
        exact ⟨cfg.defaultCenter,
               by simp [handleFallbackLocation, selects_append, selects, markerEffect_selects],
               by simp [handleFallbackLocation, markerEffect_location]⟩
      · left; simp [selects]
  | success id c =>
      cases ht : takeAttempt id s.pending with
      | none => left; simp [step, ht, selects]
      | some p =>
        obtain ⟨a, rest⟩ := p
        right
        refine ⟨c, ?_, ?_⟩
        · cases hm : s.mapExists <;>
            simp [step, ht, geoSuccess, hm, selects, selects_append, markerEffect_selects]
        · simp [step, ht, geoSuccess, markerEffect_location]
  | error id code =>
      left
      cases ht : takeAttempt id s.pending with
      | none => simp [step, ht, selects]
      | some p =>
        obtain ⟨a, rest⟩ := p
        simp [step, ht, geoError_location, geoError_selects]

/-- Claim C4 counterexample: with navigator.geolocation absent, the
automatic mount-time trigger is indeed silent, but the explicit
user trigger (the GPS overlay button) shows one alert, so the claimed
unconditional silence fails. -/
theorem C4_counterexample :
    countAlert (run cfgNoGeo (initState none) [Event.mount]).2 = 0
  ∧ countAlert (step cfgNoGeo (run cfgNoGeo (initState none) [Event.mount]).1
      Event.clickGPS).2 = 1 := by decide

/-- Claim C4 amended: when the provider capability is absent, every
acquisition trigger makes no positioning call, leaves nothing pending,
ends not locating with the location unchanged (falling back to the
manual mode), and alerts exactly when the trigger passes showError:
the mount-time trigger (showError false) is silent while an explicit
user trigger (showError true) shows one alert. -/
theorem C4_no_provider (cfg : Config) (s : State) (se ha : Bool)
    (hgeo : cfg.geoAvailable = false) :
    geoCalls (handleGeolocation cfg se ha s).2 = []
  ∧ (handleGeolocation cfg se ha s).1.pending = s.pending
  ∧ (handleGeolocation cfg se ha s).1.isLocating = false
  ∧ (handleGeolocation cfg se ha s).1.location = s.location
  ∧ countAlert (handleGeolocation cfg se ha s).2 = (if se = true then 1 else 0) := by
  cases hse : se <;> cases hm : s.mapExists <;>
    simp [handleGeolocation, handleManualSelect, hgeo, hse, hm, geoCalls, countAlert,
          geoCalls_append, countAlert_append]

/-- Claim C4 amended witness: a silent trigger without the provider
makes no call and shows no alert. -/
theorem C4_witness :
    geoCalls (handleGeolocation cfgNoGeo false true (initState none)).2 = []
  ∧ countAlert (handleGeolocation cfgNoGeo false true (initState none)).2 = 0 := by
  have h := C4_no_provider cfgNoGeo (initState none) false true rfl
  exact ⟨h.1, by simpa using h.2.2.2.2⟩

/-- Claim C5 counterexample: the mount-time attempt (started with
showError false) failing with the non-timeout code 1 surfaces zero
user-visible failure signals, not exactly one; the rest of the claim
(no retry, not locating) does hold there. -/
theorem C5_counterexample :
    countAlert (step cfgFull afterMount (Event.error 0 1)).2 = 0
  ∧ geoCalls (step cfgFull afterMount (Event.error 0 1)).2 = []
  ∧ (step cfgFull afterMount (Event.error 0 1)).1.isLocating = false := by decide

/-- Claim C5 amended: an attempt failing with a non-timeout error (or
any error on a low-accuracy attempt) never causes an automatic retry,
ends not locating with the location unchanged, and alerts exactly once
when the attempt was started with showError (a user trigger) and not at
all when it was the silent mount-time attempt. -/
theorem C5_nontimeout_no_retry (cfg : Config) (s : State) (a : Attempt)
    (rest : List Attempt) (id code : Nat)
    (htake : takeAttempt id s.pending = some (a, rest))
    (hnt : a.highAccuracy = false ∨ code ≠ 3) :
    geoCalls (step cfg s (Event.error id code)).2 = []
  ∧ (step cfg s (Event.error id code)).1.isLocating = false
  ∧ (step cfg s (Event.error id code)).1.location = s.location
  ∧ countAlert (step cfg s (Event.error id code)).2
      = (if a.showError = true then 1 else 0) := by
  have hcond : ¬(a.highAccuracy = true ∧ code = 3) := by
    rcases hnt with h | h
    · simp [h]
    · simp [h]
  cases hse : a.showError <;> cases hm : s.mapExists <;>
    simp [step, htake, geoError, hcond, hse, hm, geoCalls, countAlert,
          geoCalls_append, countAlert_append]

/-- Claim C5 amended witness: the mount attempt failing with code 2
issues no retry and zero alerts. -/
theorem C5_witness :
    geoCalls (step cfgFull afterMount (Event.error 0 2)).2 = []
  ∧ countAlert (step cfgFull afterMount (Event.error 0 2)).2 = 0 := by
  have h := C5_nontimeout_no_retry cfgFull afterMount ⟨0, false, true⟩ [] 0 2
    (by decide) (Or.inr (by decide))
  exact ⟨h.1, by simpa using h.2.2.2⟩

/-- Claim C6: evaluation at the failing input.  In the capability-
degraded view, after selecting the default location the update-location
button (which, unlike the other two acquisition buttons, is not
disabled while locating) can be pressed twice in a row: three
getCurrentPosition calls are issued in total and two attempts are
pending simultaneously.  The third conjunct shows the contrasting
correct behaviour of the locate button, whose disabled(isLocating)
guard makes the same double-trigger a no-op. -/
theorem C6_two_outstanding_calls :
    (run cfgNoWebgl (initState none)
      [Event.mount, Event.error 0 1, Event.clickFallback,
       Event.clickUpdateLoc, Event.clickUpdateLoc]).1.pending.length = 2
  ∧ geoCalls (run cfgNoWebgl (initState none)
      [Event.mount, Event.error 0 1, Event.clickFallback,
       Event.clickUpdateLoc, Event.clickUpdateLoc]).2
      = [⟨true, 10000, 0⟩, ⟨true, 10000, 0⟩, ⟨true, 10000, 0⟩]
  ∧ (step cfgNoWebgl (run cfgNoWebgl (initState none) [Event.mount]).1
      Event.clickUseCurrentLoc).1.pending.length = 1 := by decide

/-- Claim C7: the getCurrentPosition options are exactly
(highAccuracy true, timeout 10000, maximumAge 0) for a first attempt
and (highAccuracy false, timeout 20000, maximumAge 0) for the
low-accuracy attempt; and in the scenario where the high-accuracy mount
attempt times out with code 3 and the automatic retry succeeds with
(31.63, -7.99), the location becomes exactly that coordinate,
onLocationSelect receives it exactly once, and exactly the two calls
with those options were issued. -/
theorem C7_call_options_and_retry_scenario (cfg : Config) (s : State) (se : Bool)
    (hgeo : cfg.geoAvailable = true) :
    (handleGeolocation cfg se true s).2 = [Effect.geoCall ⟨true, 10000, 0⟩]
  ∧ (handleGeolocation cfg se false s).2 = [Effect.geoCall ⟨false, 20000, 0⟩]
  ∧ (run cfgFull (initState none)
       [Event.mount, Event.error 0 3, Event.success 1 coordFix]).1.location
       = some coordFix
  ∧ selects (run cfgFull (initState none)
       [Event.mount, Event.error 0 3, Event.success 1 coordFix]).2 = [coordFix]
  ∧ geoCalls (run cfgFull (initState none)
       [Event.mount, Event.error 0 3, Event.success 1 coordFix]).2
       = [⟨true, 10000, 0⟩, ⟨false, 20000, 0⟩] :=
  ⟨by simp [handleGeolocation, hgeo], by simp [handleGeolocation, hgeo],
   by decide, by decide, by decide⟩

/-- Claim C7 witness: the first user-triggered attempt in the standard
environment carries high accuracy, timeout 10000 and maximumAge 0. -/
theorem C7_witness :
    (handleGeolocation cfgFull true true (initState none)).2
      = [Effect.geoCall ⟨true, 10000, 0⟩] :=
  (C7_call_options_and_retry_scenario cfgFull (initState none) true rfl).1

/-- Claim C8 counterexample: selecting the static default and tapping
the map at the default coordinate are not equivalent in all observable
respects: the former sets the manualFallbackUsed flag (which selects
the located branch of the capability-degraded view) and the latter does
not, so the resulting states differ. -/
theorem C8_counterexample :
    (handleFallbackLocation cfgFull (initState none)).1
      ≠ (handleMapClick cfgFull.defaultCenter (initState none)).1
  ∧ (handleFallbackLocation cfgFull (initState none)).1.manualFallbackUsed = true
  ∧ (handleMapClick cfgFull.defaultCenter (initState none)).1.manualFallbackUsed
      = false := by decide

/-- Claim C8 amended: selecting the static default performs exactly the
effects of a manual map tap at the default coordinate (the same single
onLocationSelect with the default center) and produces the same state
except that it additionally sets the manualFallbackUsed flag. -/
theorem C8_default_is_tap_plus_flag (cfg : Config) (s : State) :
    (handleFallbackLocation cfg s).2 = (handleMapClick cfg.defaultCenter s).2
  ∧ (handleFallbackLocation cfg s).1
      = { (handleMapClick cfg.defaultCenter s).1 with manualFallbackUsed := true } :=
  ⟨rfl, rfl⟩

/-- State with the map mounted and loaded for a preset location (1, 2),
whose marker has been created. -/
def mapReady : State :=
  (run cfgFull (initState (some ⟨1, 2⟩)) [Event.mount, Event.mapLoad]).1

/-- Claim C9 counterexample: with the map loaded and a marker already
present (placed for the initial location (1, 2)), a map tap at (5, 6)
moves the marker but performs no centering fly-to: the map is not
centered on every Located transition, only on the first marker
placement and on positioning success. -/
theorem C9_counterexample :
    (step cfgFull mapReady (Event.mapClick ⟨5, 6⟩)).2
      = [Effect.locationSelect ⟨5, 6⟩, Effect.markerMove ⟨5, 6⟩]
  ∧ Effect.flyTo ⟨5, 6⟩ 16 ∉ (step cfgFull mapReady (Event.mapClick ⟨5, 6⟩)).2
  ∧ mapReady.marker = some ⟨1, 2⟩ := by decide

/-- Claim C9 amended: whenever a new Located coordinate is reached with
the map present and loaded, the marker is placed or moved to exactly
that coordinate; the map is additionally centered (flyTo at zoom 16)
when the marker is first created and on every positioning success, but
a map tap with an existing marker only moves the marker without
recentering. -/
theorem C9_marker_always_center_sometimes (cfg : Config) (s : State) (c : Coordinates)
    (he : s.mapError = false) (hm : s.mapExists = true) (hl : s.mapLoaded = true) :
    ((step cfg s (Event.mapClick c)).1.marker = some c)
  ∧ (s.marker = none →
      (step cfg s (Event.mapClick c)).2
        = [Effect.locationSelect c, Effect.markerCreate c, Effect.flyTo c 16])
  ∧ (∀ m, s.marker = some m →
      (step cfg s (Event.mapClick c)).2
        = [Effect.locationSelect c, Effect.markerMove c])
  ∧ (∀ id a rest, takeAttempt id s.pending = some (a, rest) →
      Effect.flyTo c 16 ∈ (step cfg s (Event.success id c)).2
      ∧ (step cfg s (Event.success id c)).1.marker = some c) := by
  refine ⟨?_, ?_, ?_, ?_⟩
  · cases hk : s.marker <;>
      simp [step, he, hm, hl, handleMapClick, markerEffect, hk]
  · intro hk
    simp [step, he, hm, hl, handleMapClick, markerEffect, hk]
  · intro m hk
    simp [step, he, hm, hl, handleMapClick, markerEffect, hk]
  · intro id a rest ht
    constructor
    · cases hk : s.marker <;>
        simp [step, ht, geoSuccess, hm, hl, markerEffect, hk]
    · cases hk : s.marker <;>
        simp [step, ht, geoSuccess, hm, hl, markerEffect, hk]

/-- Claim C9 amended witness: a tap with an existing marker moves the
marker to the tapped point without a centering fly-to. -/
theorem C9_witness :
    (step cfgFull mapReady (Event.mapClick ⟨5, 6⟩)).2
      = [Effect.locationSelect ⟨5, 6⟩, Effect.markerMove ⟨5, 6⟩] :=
  ((C9_marker_always_center_sometimes cfgFull mapReady ⟨5, 6⟩ (by decide) (by decide)
      (by decide)).2.2.1) ⟨1, 2⟩ (by decide)

/-- Claim C10: evaluation at the failing input.  After recording starts
and 40 timer ticks elapse with no manual stop, the displayed time is
capped at 30, but the recorder is still recording, the timer is still
installed, and no blob was delivered: the interval callback invokes the
stopRecording closure of the render in which recording started, whose
captured isRecording is false, so its guard never passes and the
automatic stop at 30 seconds never happens.  A manual stop from the
current render still stops the recorder and delivers exactly one
blob. -/
theorem C10_autostop_never_fires :
    (MediaUploader.ticks 40 (MediaUploader.startRecording MediaUploader.init)).recordingTime
      = 30
  ∧ (MediaUploader.ticks 40 (MediaUploader.startRecording MediaUploader.init)).recorderActive
      = true
  ∧ (MediaUploader.ticks 40 (MediaUploader.startRecording MediaUploader.init)).timerActive
      = true
  ∧ (MediaUploader.ticks 40 (MediaUploader.startRecording MediaUploader.init)).audioDelivered
      = 0
  ∧ (MediaUploader.stopRecording
      (MediaUploader.ticks 40 (MediaUploader.startRecording MediaUploader.init))).audioDelivered
      = 1
  ∧ (MediaUploader.stopRecording
      (MediaUploader.ticks 40 (MediaUploader.startRecording MediaUploader.init))).recorderActive
      = false := by decide
